import Mathlib

/-!
Verification of the Cambridge Audio AVR protocol handler
(`src/cambridgeavr/protocol.py`) against its natural-language
specification.

The embedding models Python strings as `List Char`, the handler object
`AVR` as an explicit state record, outgoing `send_command` calls as an
accumulated list of command strings, and `loop.call_soon` scheduling as an
accumulated list of `Sched` values.  Floating-point arithmetic in the two
conversion functions is modelled exactly: every IEEE-754 binary64
intermediate result is an exact rational, produced by `roundDouble`
(round-to-nearest, ties-to-even, 53-bit significand), and Python `round`
on a float is half-to-even rounding of that exact rational.
-/

namespace CambridgeAVR

/-- Shorthand: the character list of a string literal. -/
def str (s : String) : List Char := s.data

/-- Python `data.startswith(key)`: `pyStartsWith key data` is true when
`key` is a prefix of `data`. -/
def pyStartsWith : List Char → List Char → Bool
  | [], _ => true
  | _ :: _, [] => false
  | p :: ps, c :: cs => p == c && pyStartsWith ps cs

/-- Python `s.split(sep)` for a one-character separator: splits at every
occurrence of `sep`, keeping empty segments (so `"".split` gives `[""]`
and a trailing separator yields a trailing empty segment). -/
def pySplit (sep : Char) : List Char → List (List Char)
  | [] => [[]]
  | c :: cs =>
    match pySplit sep cs with
    | [] => [[]]
    | r :: rs => if c == sep then [] :: r :: rs else (c :: r) :: rs

/-- Digit run to a natural number. -/
def digitsToNat (l : List Char) : Nat :=
  l.foldl (fun a c => 10 * a + (c.toNat - 48)) 0

/-- Python `int(s)` on a string: strip surrounding whitespace, optional
sign, then a non-empty run of decimal digits; `none` models the
`ValueError` raised otherwise.  (Digit-group underscores accepted by
CPython are not modelled; no value in this development uses them.) -/
def pyParseInt (s : List Char) : Option Int :=
  let t := ((s.dropWhile Char.isWhitespace).reverse.dropWhile
      Char.isWhitespace).reverse
  match t with
  | [] => none
  | c :: rest =>
    if c == '-' then
      if rest ≠ [] ∧ rest.all Char.isDigit then
        some (-(digitsToNat rest : Int))
      else none
    else if c == '+' then
      if rest ≠ [] ∧ rest.all Char.isDigit then
        some ((digitsToNat rest : Int))
      else none
    else
      if (c :: rest).all Char.isDigit then
        some ((digitsToNat (c :: rest) : Int))
      else none

/-! ## Wire-format catalog (module-level constants of `protocol.py`) -/

def CMD_SET_POWER_STATE : List Char := str "1,01"
def CMD_VOLUME_UP : List Char := str "1,02"
def CMD_VOLUME_DOWN : List Char := str "1,03"
def CMD_SET_MUTE_STATE : List Char := str "1,11"
def CMD_SELECT_INPUT : List Char := str "2,01"

def ATTR_POWER_STATE : List Char := str "#6,01"
def ATTR_MUTE_STATE : List Char := str "#6,11"
def ATTR_VOLUME_UP : List Char := str "#6,02"
def ATTR_VOLUME_DOWN : List Char := str "#6,03"
def ATTR_SELECTED_INPUT : List Char := str "#7,01"
def ATTR_AUDIO_SOURCE : List Char := str "#7,04"
def ATTR_MYSTERY : List Char := str "#7,05"
def ATTR_SW_VERSION : List Char := str "#10,01"
def ATTR_PROTOCOL_VERSION : List Char := str "#10,02"

/-- The storage field an attribute prefix is bound to: the `"name"` entry
of the corresponding `LOOKUP` record (the dynamic
`setattr(self, "_" + name, ...)` binding of the source).  Both
`ATTR_VOLUME_UP` and `ATTR_VOLUME_DOWN` carry `"name": "volume"`, hence
both map to the single `volume` field. -/
inductive AttrField where
  | power_state
  | mute_state
  | volume
  | selected_input
  | audio_source
  | mystery
  | software_version
  | protocol_version
  deriving DecidableEq, Repr

/-- `LOOKUP` keys in dict insertion order, each with its storage field. -/
def LOOKUP : List (List Char × AttrField) :=
  [(ATTR_POWER_STATE, .power_state),
   (ATTR_MUTE_STATE, .mute_state),
   (ATTR_VOLUME_UP, .volume),
   (ATTR_VOLUME_DOWN, .volume),
   (ATTR_SELECTED_INPUT, .selected_input),
   (ATTR_AUDIO_SOURCE, .audio_source),
   (ATTR_MYSTERY, .mystery),
   (ATTR_SW_VERSION, .software_version),
   (ATTR_PROTOCOL_VERSION, .protocol_version)]

/-- The per-attribute string storage (`self._power_state`, …, one
instance attribute per distinct `LOOKUP` name, initialised to `""`). -/
structure DeviceState where
  power_state : List Char
  mute_state : List Char
  volume : List Char
  selected_input : List Char
  audio_source : List Char
  mystery : List Char
  software_version : List Char
  protocol_version : List Char
  deriving DecidableEq, Repr

def DeviceState.get (d : DeviceState) : AttrField → List Char
  | .power_state => d.power_state
  | .mute_state => d.mute_state
  | .volume => d.volume
  | .selected_input => d.selected_input
  | .audio_source => d.audio_source
  | .mystery => d.mystery
  | .software_version => d.software_version
  | .protocol_version => d.protocol_version

def DeviceState.set (d : DeviceState) (f : AttrField) (v : List Char) :
    DeviceState :=
  match f with
  | .power_state => { d with power_state := v }
  | .mute_state => { d with mute_state := v }
  | .volume => { d with volume := v }
  | .selected_input => { d with selected_input := v }
  | .audio_source => { d with audio_source := v }
  | .mystery => { d with mystery := v }
  | .software_version => { d with software_version := v }
  | .protocol_version => { d with protocol_version := v }

/-- The mutable state of an `AVR` handler instance (`__init__`). -/
structure AVRState where
  dev : DeviceState
  /-- `self.buffer` -/
  buffer : List Char
  /-- `self._poweron_refresh_successful` -/
  poweron_refresh_successful : Bool
  /-- `self._volume_update_state`: 0 = Idle, 1 = Requested, 2 = Completed -/
  volume_update_state : Nat
  /-- `self._volume_update_success` (set in `__init__`, never read) -/
  volume_update_success : Bool
  /-- `self._volume_target` (`None` or an integer) -/
  volume_target : Option Int
  deriving DecidableEq, Repr

/-- A fresh handler: every attribute `""`, flag unset, state Idle,
no target, empty buffer. -/
def initialState : AVRState :=
  { dev := { power_state := [], mute_state := [], volume := [],
             selected_input := [], audio_source := [], mystery := [],
             software_version := [], protocol_version := [] }
    buffer := []
    poweron_refresh_successful := false
    volume_update_state := 0
    volume_update_success := false
    volume_target := none }

/-- Python truthiness of `self._volume_target` (an `Option Int`):
`None` and `0` are falsy. -/
def targetTruthy : Option Int → Bool
  | none => false
  | some n => n != 0

/-- `_get_attribute_value` for an attribute bound to field `f`. -/
def getAttributeValue (st : AVRState) (f : AttrField) : List Char :=
  st.dev.get f

/-- `_get_integer`: `int(value)` with `ValueError` giving 0. -/
def getInteger (st : AVRState) (f : AttrField) : Int :=
  (pyParseInt (st.dev.get f)).getD 0

/-- `_get_boolean`: `bool(int(value))` with `ValueError` giving `False`. -/
def getBoolean (st : AVRState) (f : AttrField) : Bool :=
  match pyParseInt (st.dev.get f) with
  | some n => n != 0
  | none => false

/-- Property `power`. -/
def power (st : AVRState) : Bool := getBoolean st .power_state

/-- Property `mute`. -/
def mute (st : AVRState) : Bool := getBoolean st .mute_state

/-- Property `input_number`. -/
def inputNumber (st : AVRState) : Int := getInteger st .selected_input

/-- Property getter `attenuation`: `int` of the stored volume attribute,
`ValueError`/`NameError` giving −90. -/
def attenuation (st : AVRState) : Int :=
  match pyParseInt (st.dev.get .volume) with
  | some n => n
  | none => -90

/-- A callback handed to `loop.call_soon` during `_parse_message`:
the power-on callback, or the external update callback with the raw
message as payload. -/
inductive Sched where
  | poweron
  | update (data : List Char)
  deriving DecidableEq, Repr

/-- Result of one `_parse_message` call: the mutated handler state, the
commands passed to `send_command` (in order), the callbacks passed to
`loop.call_soon` (in order), and the `recognized` flag. -/
structure ParseOut where
  st : AVRState
  cmds : List (List Char)
  sched : List Sched
  recognized : Bool
  deriving DecidableEq, Repr

/-- The first-match scan `for key in LOOKUP: if data.startswith(key)`. -/
def findAttr : List (List Char × AttrField) → List Char →
    Option (List Char × AttrField)
  | [], _ => none
  | kv :: rest, data =>
    if pyStartsWith kv.1 data then some kv else findAttr rest data

/-- `_parse_message`.  Faithful to the source: device-error prefixes are
log-only; otherwise the first matching catalog prefix stores the value
suffix; then — for any message — the power-on callback is scheduled when
`self.power` is truthy and the refresh flag unset; then the volume branch
runs when the message starts with either volume prefix; finally the
update callback is scheduled when `newdata` is set. -/
def parseMessage (st0 : AVRState) (data : List Char) : ParseOut :=
  if pyStartsWith (str "#11,01") data || pyStartsWith (str "#11,02") data
      || pyStartsWith (str "#11,03") data then
    { st := st0, cmds := [], sched := [], recognized := true }
  else
    let dec := findAttr LOOKUP data
    let st1 :=
      match dec with
      | some (key, f) =>
        { st0 with dev := st0.dev.set f (data.drop (key.length + 1)) }
      | none => st0
    let newdata1 :=
      match dec with
      | some (key, f) => st0.dev.get f ≠ data.drop (key.length + 1)
      | none => false
    let recognized1 := dec.isSome
    let sched1 : List Sched :=
      if power st1 && !st1.poweron_refresh_successful then
        [Sched.poweron]
      else []
    let volumeMsg :=
      pyStartsWith ATTR_VOLUME_UP data || pyStartsWith ATTR_VOLUME_DOWN data
    let volume := getInteger st1 .volume
    let conv : AVRState × List (List Char) :=
      if volumeMsg then
        if targetTruthy st1.volume_target then
          if volume ≠ st1.volume_target.getD 0 then
            (st1, [if st1.volume_target.getD 0 > volume then CMD_VOLUME_UP
                   else CMD_VOLUME_DOWN])
          else ({ st1 with volume_target := none }, [])
        else (st1, [])
      else (st1, [])
    let st2 := conv.1
    let probe : AVRState × List (List Char) :=
      if volumeMsg then
        if st2.volume_update_state == 1 then
          ({ st2 with volume_update_state := 2 }, [CMD_VOLUME_UP])
        else (st2, [])
      else (st2, [])
    let st3 := probe.1
    let cmds2 := conv.2
    let cmds3 := probe.2
    let newdata2 := newdata1 || volumeMsg
    let recognized2 := recognized1 || volumeMsg
    { st := st3
      cmds := cmds2 ++ cmds3
      sched := sched1 ++ (if newdata2 then [Sched.update data] else [])
      recognized := recognized2 }

/-- Trace of a batch: state, messages handed to `_parse_message`,
commands sent, callbacks scheduled. -/
structure Trace where
  st : AVRState
  msgs : List (List Char)
  cmds : List (List Char)
  sched : List Sched
  deriving DecidableEq, Repr

/-- `_assemble_buffer`: split the buffer on `"\r"`, hand every non-empty
segment (including a trailing segment that had no terminator) to
`_parse_message`, then clear the buffer. -/
def assembleBuffer (st0 : AVRState) : Trace :=
  let segs := (pySplit '\r' st0.buffer).filter (· ≠ [])
  let t := segs.foldl
    (fun (t : Trace) m =>
      let r := parseMessage t.st m
      { st := r.st, msgs := t.msgs ++ [m], cmds := t.cmds ++ r.cmds,
        sched := t.sched ++ r.sched })
    { st := st0, msgs := [], cmds := [], sched := [] }
  { t with st := { t.st with buffer := [] } }

/-- `data_received`: append the chunk to the buffer, then assemble. -/
def dataReceived (st0 : AVRState) (chunk : List Char) : Trace :=
  assembleBuffer { st0 with buffer := st0.buffer ++ chunk }

/-- Result of one `_refresh_volume(tries)` call: mutated state, commands
sent, the `tries` argument of the re-armed `call_later` timer (if any),
and whether the timeout warning was logged. -/
structure RefreshOut where
  st : AVRState
  cmds : List (List Char)
  rearm : Option Nat
  warned : Bool
  deriving DecidableEq, Repr

/-- `_refresh_volume(tries)`: three sequential (non-exclusive) checks on
`self._volume_update_state`, exactly as in the source. -/
def refreshVolume (st0 : AVRState) (tries : Nat) : RefreshOut :=
  let st1 :=
    if st0.volume_update_state == 0 then
      { st0 with volume_update_state := 1 }
    else st0
  let step :=
    if st1.volume_update_state == 1 then
      if tries < 10 then (([CMD_VOLUME_DOWN] : List (List Char)),
        some (tries + 1), false)
      else ([], none, true)
    else ([], none, false)
  let st2 :=
    if st1.volume_update_state == 2 then
      { st1 with volume_update_state := 0 }
    else st1
  { st := st2, cmds := step.1, rearm := step.2.1, warned := step.2.2 }

/-- `_poweron_callback`: run `_refresh_volume()` (with `tries = 0`),
then set `self._poweron_refresh_successful = True`. -/
def poweronCallback (st0 : AVRState) : RefreshOut :=
  let r := refreshVolume st0 0
  { r with st := { r.st with poweron_refresh_successful := true } }

/-- Run a list of scheduled callbacks in FIFO order (the event loop
draining `call_soon` entries); the external update callback does not
touch handler state. -/
def runScheduled (st0 : AVRState) (l : List Sched) :
    AVRState × List (List Char) :=
  l.foldl
    (fun (acc : AVRState × List (List Char)) s =>
      match s with
      | .poweron =>
        let r := poweronCallback acc.1
        (r.st, acc.2 ++ r.cmds)
      | .update _ => acc)
    (st0, [])

/-- The `attenuation` property setter: read the current volume, and when
the new value is an in-range integer different from it, record it as the
target and send one nudge in its direction. -/
def setAttenuation (st : AVRState) (value : Int) : AVRState × List (List Char) :=
  let volume := getInteger st .volume
  if -90 ≤ value ∧ value ≤ 0 ∧ value ≠ volume then
    ({ st with volume_target := some value },
     [if value > volume then CMD_VOLUME_UP else CMD_VOLUME_DOWN])
  else (st, [])

/-- The timer chain of the power-on probe when no volume-attribute
message intervenes: perform one `_refresh_volume(tries)` call and follow
the re-armed `call_later` timer, with explicit fuel bounding how many
timer fires are examined.  Returns the final state, all commands sent,
and whether the timeout warning was logged. -/
def probeRun (fuel : Nat) (st : AVRState) (tries : Nat) :
    AVRState × List (List Char) × Bool :=
  match fuel with
  | 0 => (st, [], false)
  | fuel + 1 =>
    let r := refreshVolume st tries
    match r.rearm with
    | none => (r.st, r.cmds, r.warned)
    | some t2 =>
      let rest := probeRun fuel r.st t2
      (rest.1, r.cmds ++ rest.2.1, rest.2.2)

/-- A full power-on probe in which no volume-attribute message is ever
observed: the scheduled `_poweron_callback` runs, then every re-armed
retry timer fires. -/
def probeRunFrom (fuel : Nat) (st : AVRState) :
    AVRState × List (List Char) × Bool :=
  let r := poweronCallback st
  match r.rearm with
  | none => (r.st, r.cmds, r.warned)
  | some t =>
    let rest := probeRun fuel r.st t
    (rest.1, r.cmds ++ rest.2.1, rest.2.2)

/-! ## Exact model of the floating-point conversion functions

`attenuation_to_volume` and `volume_to_attenuation` compute with Python
floats (IEEE-754 binary64).  Every binary64 value is an exact rational,
and every arithmetic operation rounds its exact result to the nearest
representable value, ties to even.  We model this with unreduced
integer fractions (`PreRat`, denominator kept positive) so that all
computations reduce in the kernel, and with `roundDouble`, which rounds
an exact rational to 53 significant bits (the normal binary64 range,
which covers every intermediate value of the two functions on integer
inputs).  Python `round` on a float is half-to-even rounding of that
exact rational, modelled by `rheInt`. -/

/-- An exact rational as an unreduced fraction; operations below keep
the denominator positive. -/
structure PreRat where
  num : Int
  den : Int
  deriving Repr

def qOfInt (n : Int) : PreRat := ⟨n, 1⟩

def qNeg (a : PreRat) : PreRat := ⟨-a.num, a.den⟩

def qMul (a b : PreRat) : PreRat := ⟨a.num * b.num, a.den * b.den⟩

/-- Division; flips signs so the denominator stays positive. -/
def qDiv (a b : PreRat) : PreRat :=
  if b.num < 0 then ⟨-(a.num * b.den), a.den * -b.num⟩
  else ⟨a.num * b.den, a.den * b.num⟩

def qLt (a b : PreRat) : Bool := a.num * b.den < b.num * a.den

def qLe (a b : PreRat) : Bool := a.num * b.den ≤ b.num * a.den

/-- Floor of an exact rational (positive denominator). -/
def qFloor (a : PreRat) : Int := Int.fdiv a.num a.den

/-- Round an exact rational to the nearest integer, ties to even:
both the semantics of Python `round` on a float and the tie rule of
binary64 round-to-nearest. -/
def rheInt (a : PreRat) : Int :=
  let f := qFloor a
  let frac2 := 2 * (a.num - f * a.den)
  if frac2 < a.den then f
  else if a.den < frac2 then f + 1
  else if f % 2 = 0 then f else f + 1

/-- 2^k as an exact rational, for integer k. -/
def qPow2 (k : Int) : PreRat :=
  if 0 ≤ k then ⟨2 ^ k.toNat, 1⟩ else ⟨1, 2 ^ (-k).toNat⟩

/-- Fuelled base-2 floor logarithm of a positive rational. -/
def log2Down : Nat → PreRat → Int
  | 0, _ => 0
  | fuel + 1, x =>
    if qLe ⟨2, 1⟩ x then log2Down fuel ⟨x.num, x.den * 2⟩ + 1
    else if qLt x ⟨1, 1⟩ then log2Down fuel ⟨x.num * 2, x.den⟩ - 1
    else 0

/-- Round a positive rational to 53 significant bits, ties to even. -/
def roundDoubleAux (x : PreRat) : PreRat :=
  let e := log2Down 400 x
  let m := rheInt (qMul x (qPow2 (52 - e)))
  qMul (qOfInt m) (qPow2 (e - 52))

/-- Round an exact rational to the nearest binary64 value (normal
range). -/
def roundDouble (x : PreRat) : PreRat :=
  if x.num = 0 then ⟨0, 1⟩
  else if x.num < 0 then qNeg (roundDoubleAux (qNeg x))
  else roundDoubleAux x

/-- `attenuation_to_volume` on an already-converted integer:
`round((90.00 + int(value)) / 90 * 100)` with each float operation
rounded to binary64. -/
def attenuation_to_volume (value : Int) : Int :=
  let s := roundDouble (qOfInt (90 + value))
  let q := roundDouble (qDiv s (qOfInt 90))
  let p := roundDouble (qMul q (qOfInt 100))
  rheInt p

/-- `volume_to_attenuation` on an integer: `round((value / 100) * 90) - 90`
with each float operation rounded to binary64 (`value / 100` is true
division, producing a float). -/
def volume_to_attenuation (value : Int) : Int :=
  let q := roundDouble (qDiv (qOfInt value) (qOfInt 100))
  let p := roundDouble (qMul q (qOfInt 90))
  rheInt p - 90

/-- A Python value passed to a conversion function: an `int` or a `str`. -/
inductive PyValue where
  | int (n : Int)
  | str (s : List Char)
  deriving DecidableEq, Repr

/-- The exception class an uncaught Python exception belongs to. -/
inductive PyExc where
  | valueError
  | typeError
  deriving DecidableEq, Repr

/-- `attenuation_to_volume` as written: `int(value)` raises `ValueError`
on a non-numeric string, which the `except ValueError` clause turns
into the return value 0. -/
def attenuation_to_volume_py : PyValue → Except PyExc Int
  | .int n => .ok (attenuation_to_volume n)
  | .str s =>
    match pyParseInt s with
    | some n => .ok (attenuation_to_volume n)
    | none => .ok 0

/-- `volume_to_attenuation` as written: `value / 100` on a string raises
`TypeError`, and the function catches only `ValueError`, so the
exception propagates to the caller. -/
def volume_to_attenuation_py : PyValue → Except PyExc Int
  | .int n => .ok (volume_to_attenuation n)
  | .str _ => .error .typeError

/-! ## Concrete states used in counterexamples and witnesses -/

/-- A fresh handler whose stored volume attribute is `"-10"`. -/
def volumeMinus10State : AVRState :=
  { initialState with dev := { initialState.dev with volume := str "-10" } }

/-- A handler with a convergence target of −50 dB in flight. -/
def targetMinus50State : AVRState :=
  { initialState with volume_target := some (-50) }

/-- A handler whose probe state is ProbeRequested. -/
def probeRequestedState : AVRState :=
  { initialState with volume_update_state := 1 }

/-! ## Helper lemmas -/

lemma DeviceState.get_set (d : DeviceState) (f : AttrField) (v : List Char) :
    (d.set f v).get f = v := by
  cases f <;> rfl

/-- `_refresh_volume` while the state is ProbeRequested: the state is
untouched, and below 10 tries one Volume-Down goes out and the timer is
re-armed; from 10 tries on, only the timeout warning. -/
lemma refreshVolume_state1 (st : AVRState) (t : Nat)
    (h : st.volume_update_state = 1) :
    refreshVolume st t =
      { st := st,
        cmds := if t < 10 then [CMD_VOLUME_DOWN] else [],
        rearm := if t < 10 then some (t + 1) else none,
        warned := if t < 10 then false else true } := by
  simp [refreshVolume, h]
  split <;> simp <;> omega

/-- Invariants of the retry chain while the state stays ProbeRequested:
at most `10 − t` commands, all of them Volume-Down, and with enough
fuel the chain ends in the logged timeout. -/
lemma probeRun_state1 (fuel : Nat) :
    ∀ (st : AVRState) (t : Nat), st.volume_update_state = 1 →
      (probeRun fuel st t).2.1.length ≤ 10 - t
      ∧ (probeRun fuel st t).2.1.all (· == CMD_VOLUME_DOWN) = true
      ∧ (t ≤ 10 → 11 - t ≤ fuel → (probeRun fuel st t).2.2 = true) := by
  induction fuel with
  | zero =>
    intro st t h
    refine ⟨by simp [probeRun], by simp [probeRun], ?_⟩
    intro h1 h2
    omega
  | succ fuel ih =>
    intro st t h
    by_cases ht : t < 10
    · have hr : probeRun (fuel + 1) st t =
          ((probeRun fuel st (t + 1)).1,
            CMD_VOLUME_DOWN :: (probeRun fuel st (t + 1)).2.1,
            (probeRun fuel st (t + 1)).2.2) := by
        simp [probeRun, refreshVolume_state1 st t h, ht]
      obtain ⟨l1, l2, l3⟩ := ih st (t + 1) h
      refine ⟨?_, ?_, ?_⟩
      · rw [hr]; simp; omega
      · rw [hr]; simp [l2]
      · rw [hr]; intro _ h2; exact l3 (by omega) (by omega)
    · have hr : probeRun (fuel + 1) st t = (st, [], true) := by
        simp [probeRun, refreshVolume_state1 st t h, ht]
      rw [hr]
      refine ⟨by simp, by simp, by simp⟩

/-- The `for key in LOOKUP` scan finds nothing when no catalog prefix
matches. -/
lemma findAttr_eq_none (data : List Char)
    (h : ∀ kv ∈ LOOKUP, pyStartsWith kv.1 data = false) :
    findAttr LOOKUP data = none := by
  have hgen : ∀ (l : List (List Char × AttrField)),
      (∀ kv ∈ l, pyStartsWith kv.1 data = false) → findAttr l data = none := by
    intro l
    induction l with
    | nil => intro _; rfl
    | cons kv rest ih =>
      intro hl
      simp only [findAttr, hl kv (by simp)]
      simpa using ih (fun kv2 hm => hl kv2 (by simp [hm]))
  exact hgen LOOKUP h

/-! ## Theorems -/

/-- C1: the claim says a trailing fragment with no delimiter is retained
as the pending buffer and that feeding `"#6,01,"` then `"1\r"` yields
exactly one decoded PowerState message with value `"1"`.  The code does
neither: `_assemble_buffer` hands every non-empty segment — including
the undelimited trailing fragment — to `_parse_message` and then clears
the buffer, so the fragment `"#6,01,"` is decoded at once (storing the
empty value), the second chunk is decoded as the unrecognizable message
`"1"`, and the value `"1"` is never stored. -/
theorem claim1_fragment_parsed_immediately :
    (dataReceived initialState (str "#6,01,")).msgs = [str "#6,01,"]
    ∧ (dataReceived initialState (str "#6,01,")).st.buffer = []
    ∧ (dataReceived initialState (str "#6,01,")).st.dev.power_state = []
    ∧ (dataReceived (dataReceived initialState (str "#6,01,")).st
        (str "1\r")).msgs = [str "1"]
    ∧ (dataReceived (dataReceived initialState (str "#6,01,")).st
        (str "1\r")).st.dev.power_state = [] := by
  decide

/-- C3: the claim says the power-on probe is scheduled exactly once over
the whole run of decoded messages.  The code schedules
`_poweron_callback` on every decoded message while `self.power` is
truthy and the refresh flag unset, and the flag is only set when the
deferred callback runs; two PowerState=On messages arriving in one
chunk are decoded before any scheduled callback runs, so the probe is
scheduled twice and, when the event loop drains the queue, two
Volume-Down commands go out. -/
theorem claim3_probe_scheduled_twice :
    (dataReceived initialState (str "#6,01,1\r#6,01,1\r")).sched.count
      Sched.poweron = 2
    ∧ (runScheduled (dataReceived initialState (str "#6,01,1\r#6,01,1\r")).st
        (dataReceived initialState (str "#6,01,1\r#6,01,1\r")).sched).2
      = [CMD_VOLUME_DOWN, CMD_VOLUME_DOWN] := by
  decide

/-- C7: the claim says both conversion functions map non-parseable input
to a default without raising.  `attenuation_to_volume` does (its
`int(value)` raises `ValueError`, which is caught), but
`volume_to_attenuation("abc")` evaluates `"abc" / 100`, which raises
`TypeError`; the function catches only `ValueError`, so the exception
propagates instead of returning −90. -/
theorem claim7_string_input_raises_type_error :
    volume_to_attenuation_py (.str (str "abc")) = .error .typeError
    ∧ attenuation_to_volume_py (.str (str "abc")) = .ok 0 :=
  ⟨rfl, rfl⟩

set_option maxRecDepth 1000000 in
set_option maxHeartbeats 4000000 in
/-- C6: for every integer volume in [0,100] the round-trip through
`volume_to_attenuation` then `attenuation_to_volume` is within ±1, and
for every integer attenuation in [−90,0] the opposite round-trip is
within ±1 (exact binary64 semantics). -/
theorem claim6_roundtrip_within_one :
    (∀ v : Fin 101,
      (attenuation_to_volume (volume_to_attenuation (v : Int))
        - (v : Int)).natAbs ≤ 1)
    ∧ (∀ k : Fin 91,
      (volume_to_attenuation (attenuation_to_volume ((k : Int) - 90))
        - ((k : Int) - 90)).natAbs ≤ 1) := by
  decide

/-- C2 counterexample: the claim quantifies over every target in
[−90, 0], but the convergence handler guards on Python truthiness of
`self._volume_target`, and the in-range target 0 is falsy.  With
current value −10, setting the target to 0 stores it and sends the
initial nudge, yet a subsequently observed volume of −5 (≠ 0) triggers
no further nudge and the target is never cleared. -/
theorem claim2_target_zero_never_converges :
    (setAttenuation
        { initialState with
          dev := { initialState.dev with volume := str "-10" } } 0).1.volume_target
      = some 0
    ∧ (setAttenuation
        { initialState with
          dev := { initialState.dev with volume := str "-10" } } 0).2
      = [CMD_VOLUME_UP]
    ∧ (parseMessage
        (setAttenuation
          { initialState with
            dev := { initialState.dev with volume := str "-10" } } 0).1
        (str "#6,02,-5")).cmds = []
    ∧ (parseMessage
        (setAttenuation
          { initialState with
            dev := { initialState.dev with volume := str "-10" } } 0).1
        (str "#6,02,-5")).st.volume_target = some 0 := by
  decide

/-- C4 counterexample: the claim says the probe state is reset to Idle
on the next decode cycle.  After a volume message satisfies the probe
(state 1 → 2 with one compensating Volume-Up), decoding the next
message leaves the state at 2: no decode path ever writes 0, only the
next `_refresh_volume` timer fire does. -/
theorem claim4_next_decode_does_not_reset :
    (parseMessage
        { initialState with
            volume_update_state := 1,
            dev := { initialState.dev with volume := str "-20" } }
        (str "#6,02,-21")).cmds = [CMD_VOLUME_UP]
    ∧ (parseMessage
        { initialState with
            volume_update_state := 1,
            dev := { initialState.dev with volume := str "-20" } }
        (str "#6,02,-21")).st.volume_update_state = 2
    ∧ (parseMessage
        (parseMessage
          { initialState with
              volume_update_state := 1,
              dev := { initialState.dev with volume := str "-20" } }
          (str "#6,02,-21")).st
        (str "#6,11,00")).st.volume_update_state = 2 := by
  decide

/-- C9: any accessor read over an unset (empty) or non-numeric stored
attribute returns its safe default instead of failing: `power` and
`mute` are `False`, `input_number` and `_get_integer` are 0, and
`attenuation` is −90. -/
theorem claim9_accessor_defaults (st : AVRState)
    (hp : pyParseInt (st.dev.get .power_state) = none)
    (hm : pyParseInt (st.dev.get .mute_state) = none)
    (hs : pyParseInt (st.dev.get .selected_input) = none)
    (hv : pyParseInt (st.dev.get .volume) = none) :
    power st = false ∧ mute st = false ∧ inputNumber st = 0
    ∧ getInteger st .volume = 0 ∧ attenuation st = -90 := by
  refine ⟨?_, ?_, ?_, ?_, ?_⟩ <;>
    simp [power, mute, inputNumber, attenuation, getBoolean, getInteger,
      hp, hm, hs, hv]

/-- C9 witness: a fresh handler has every attribute unset, and every
accessor returns its default. -/
theorem claim9_accessor_defaults_witness :
    power initialState = false ∧ mute initialState = false
    ∧ inputNumber initialState = 0
    ∧ getInteger initialState .volume = 0
    ∧ attenuation initialState = -90 :=
  claim9_accessor_defaults initialState rfl rfl rfl rfl

/-- C2 (amended: the target must be non-zero, since the convergence
handler tests the target with Python truthiness and 0 is falsy): for a
target T in [−90, 0] with T ≠ 0 and T different from the currently
observed value, the setter records the target and sends one nudge in
the direction of T; thereafter every decoded volume-attribute message
whose value differs from T causes exactly one further nudge in the
direction of T, and an observed value equal to T clears the target with
no further command.  (The probe state machine is not mid-probe, so its
compensating send does not interleave.) -/
theorem claim2_convergence_amended (st st2 : AVRState) (T : Int) (s : List Char)
    (hlo : -90 ≤ T) (hhi : T ≤ 0) (hT0 : T ≠ 0)
    (hC : T ≠ getInteger st .volume)
    (ht : st2.volume_target = some T)
    (hvus : st2.volume_update_state ≠ 1) :
    setAttenuation st T
      = ({ st with volume_target := some T },
        [if T > getInteger st .volume then CMD_VOLUME_UP else CMD_VOLUME_DOWN])
    ∧ ((pyParseInt s).getD 0 ≠ T →
        (parseMessage st2 (str "#6,02," ++ s)).cmds
          = [if T > (pyParseInt s).getD 0 then CMD_VOLUME_UP else CMD_VOLUME_DOWN]
        ∧ (parseMessage st2 (str "#6,02," ++ s)).st.volume_target = some T
        ∧ (parseMessage st2 (str "#6,03," ++ s)).cmds
          = [if T > (pyParseInt s).getD 0 then CMD_VOLUME_UP else CMD_VOLUME_DOWN]
        ∧ (parseMessage st2 (str "#6,03," ++ s)).st.volume_target = some T)
    ∧ ((pyParseInt s).getD 0 = T →
        (parseMessage st2 (str "#6,02," ++ s)).cmds = []
        ∧ (parseMessage st2 (str "#6,02," ++ s)).st.volume_target = none
        ∧ (parseMessage st2 (str "#6,03," ++ s)).cmds = []
        ∧ (parseMessage st2 (str "#6,03," ++ s)).st.volume_target = none) := by
  have e0u : (pyStartsWith (str "#11,01") (str "#6,02," ++ s)
      || pyStartsWith (str "#11,02") (str "#6,02," ++ s)
      || pyStartsWith (str "#11,03") (str "#6,02," ++ s)) = false := rfl
  have e1u : findAttr LOOKUP (str "#6,02," ++ s)
      = some (ATTR_VOLUME_UP, .volume) := rfl
  have e2u : (str "#6,02," ++ s).drop (ATTR_VOLUME_UP.length + 1) = s := rfl
  have e3u : (pyStartsWith ATTR_VOLUME_UP (str "#6,02," ++ s)
      || pyStartsWith ATTR_VOLUME_DOWN (str "#6,02," ++ s)) = true := rfl
  have e0d : (pyStartsWith (str "#11,01") (str "#6,03," ++ s)
      || pyStartsWith (str "#11,02") (str "#6,03," ++ s)
      || pyStartsWith (str "#11,03") (str "#6,03," ++ s)) = false := rfl
  have e1d : findAttr LOOKUP (str "#6,03," ++ s)
      = some (ATTR_VOLUME_DOWN, .volume) := rfl
  have e2d : (str "#6,03," ++ s).drop (ATTR_VOLUME_DOWN.length + 1) = s := rfl
  have e3d : (pyStartsWith ATTR_VOLUME_UP (str "#6,03," ++ s)
      || pyStartsWith ATTR_VOLUME_DOWN (str "#6,03," ++ s)) = true := rfl
  refine ⟨?_, ?_, ?_⟩
  · simp only [setAttenuation]
    rw [if_pos ⟨hlo, hhi, hC⟩]
  · intro hvne
    refine ⟨?_, ?_, ?_, ?_⟩ <;>
    · simp only [parseMessage, e0u, e1u, e2u, e3u, e0d, e1d, e2d, e3d,
        Bool.false_eq_true, if_false, if_true]
      simp [targetTruthy, ht, hT0, getInteger, DeviceState.get_set, hvus, hvne]
  · intro hveq
    refine ⟨?_, ?_, ?_, ?_⟩ <;>
    · simp only [parseMessage, e0u, e1u, e2u, e3u, e0d, e1d, e2d, e3d,
        Bool.false_eq_true, if_false, if_true]
      simp [targetTruthy, ht, hT0, getInteger, DeviceState.get_set, hvus, hveq]

/-- C2 witness: with current volume −10, setting the target −50 sends
one Volume-Down; a handler with target −50 that observes −45 sends one
further Volume-Down (from either volume prefix) and keeps the target. -/
theorem claim2_convergence_amended_witness :
    setAttenuation volumeMinus10State (-50)
      = ({ volumeMinus10State with volume_target := some (-50) },
        [CMD_VOLUME_DOWN])
    ∧ (parseMessage targetMinus50State (str "#6,02," ++ str "-45")).cmds
      = [CMD_VOLUME_DOWN]
    ∧ (parseMessage targetMinus50State
        (str "#6,02," ++ str "-45")).st.volume_target = some (-50)
    ∧ (parseMessage targetMinus50State (str "#6,03," ++ str "-45")).cmds
      = [CMD_VOLUME_DOWN]
    ∧ (parseMessage targetMinus50State
        (str "#6,03," ++ str "-45")).st.volume_target = some (-50) := by
  obtain ⟨h1, h2, h3⟩ := claim2_convergence_amended volumeMinus10State
    targetMinus50State (-50) (str "-45") (by decide) (by decide) (by decide)
    (by decide) rfl (by decide)
  obtain ⟨a1, a2, a3, a4⟩ := h2 (by decide)
  exact ⟨h1.trans (by decide), a1.trans (by decide), a2,
    a3.trans (by decide), a4⟩

/-- C4 (amended: the reset to Idle happens on the next `_refresh_volume`
timer fire, not on the next decode cycle): while the probe state is
ProbeRequested and no convergence target is in flight, decoding either
volume-attribute message sends exactly one compensating Volume-Up and
moves the state to ProbeCompleted; the next `_refresh_volume` call
resets the state to Idle and sends nothing. -/
theorem claim4_probe_satisfied_amended (st : AVRState) (s : List Char) (t : Nat)
    (h1 : st.volume_update_state = 1) (h2 : st.volume_target = none) :
    ((parseMessage st (str "#6,02," ++ s)).cmds = [CMD_VOLUME_UP]
      ∧ (parseMessage st (str "#6,02," ++ s)).st.volume_update_state = 2)
    ∧ ((parseMessage st (str "#6,03," ++ s)).cmds = [CMD_VOLUME_UP]
      ∧ (parseMessage st (str "#6,03," ++ s)).st.volume_update_state = 2)
    ∧ (∀ st2 : AVRState, st2.volume_update_state = 2 →
        (refreshVolume st2 t).st.volume_update_state = 0
        ∧ (refreshVolume st2 t).cmds = []) := by
  have e0u : (pyStartsWith (str "#11,01") (str "#6,02," ++ s)
      || pyStartsWith (str "#11,02") (str "#6,02," ++ s)
      || pyStartsWith (str "#11,03") (str "#6,02," ++ s)) = false := rfl
  have e1u : findAttr LOOKUP (str "#6,02," ++ s)
      = some (ATTR_VOLUME_UP, .volume) := rfl
  have e2u : (str "#6,02," ++ s).drop (ATTR_VOLUME_UP.length + 1) = s := rfl
  have e3u : (pyStartsWith ATTR_VOLUME_UP (str "#6,02," ++ s)
      || pyStartsWith ATTR_VOLUME_DOWN (str "#6,02," ++ s)) = true := rfl
  have e0d : (pyStartsWith (str "#11,01") (str "#6,03," ++ s)
      || pyStartsWith (str "#11,02") (str "#6,03," ++ s)
      || pyStartsWith (str "#11,03") (str "#6,03," ++ s)) = false := rfl
  have e1d : findAttr LOOKUP (str "#6,03," ++ s)
      = some (ATTR_VOLUME_DOWN, .volume) := rfl
  have e2d : (str "#6,03," ++ s).drop (ATTR_VOLUME_DOWN.length + 1) = s := rfl
  have e3d : (pyStartsWith ATTR_VOLUME_UP (str "#6,03," ++ s)
      || pyStartsWith ATTR_VOLUME_DOWN (str "#6,03," ++ s)) = true := rfl
  refine ⟨⟨?_, ?_⟩, ⟨?_, ?_⟩, ?_⟩
  · simp only [parseMessage, e0u, e1u, e2u, e3u, Bool.false_eq_true,
      if_false, if_true]
    simp [targetTruthy, h2, h1]
  · simp only [parseMessage, e0u, e1u, e2u, e3u, Bool.false_eq_true,
      if_false, if_true]
    simp [targetTruthy, h2, h1]
  · simp only [parseMessage, e0d, e1d, e2d, e3d, Bool.false_eq_true,
      if_false, if_true]
    simp [targetTruthy, h2, h1]
  · simp only [parseMessage, e0d, e1d, e2d, e3d, Bool.false_eq_true,
      if_false, if_true]
    simp [targetTruthy, h2, h1]
  · intro st2 h3
    constructor <;> simp [refreshVolume, h3]

/-- C4 witness: the probe-satisfied step evaluated on a handler in
ProbeRequested decoding `"#6,02,-21"` and `"#6,03,-21"`. -/
theorem claim4_probe_satisfied_amended_witness :
    ((parseMessage probeRequestedState (str "#6,02," ++ str "-21")).cmds
        = [CMD_VOLUME_UP]
      ∧ (parseMessage probeRequestedState
          (str "#6,02," ++ str "-21")).st.volume_update_state = 2)
    ∧ ((parseMessage probeRequestedState (str "#6,03," ++ str "-21")).cmds
        = [CMD_VOLUME_UP]
      ∧ (parseMessage probeRequestedState
          (str "#6,03," ++ str "-21")).st.volume_update_state = 2)
    ∧ (∀ st2 : AVRState, st2.volume_update_state = 2 →
        (refreshVolume st2 0).st.volume_update_state = 0
        ∧ (refreshVolume st2 0).cmds = []) :=
  claim4_probe_satisfied_amended probeRequestedState (str "-21") 0 rfl rfl

/-- C5: a power-on probe in which no volume-attribute message is ever
observed sends at most 10 commands, all of them Volume-Down, and with
enough timer fires ends in the logged timeout warning (the model is
total, so no error reaches the caller). -/
theorem claim5_probe_at_most_ten (st : AVRState) (fuel : Nat)
    (h : st.volume_update_state = 0) :
    (probeRunFrom fuel st).2.1.length ≤ 10
    ∧ (probeRunFrom fuel st).2.1.all (· == CMD_VOLUME_DOWN) = true
    ∧ (10 ≤ fuel → (probeRunFrom fuel st).2.2 = true) := by
  have hcb : poweronCallback st =
      { st := { st with
                  volume_update_state := 1,
                  poweron_refresh_successful := true },
        cmds := [CMD_VOLUME_DOWN], rearm := some 1, warned := false } := by
    simp [poweronCallback, refreshVolume, h]
  have hst1 : ({ st with
      volume_update_state := 1,
      poweron_refresh_successful := true } : AVRState).volume_update_state
      = 1 := rfl
  have hrun : probeRunFrom fuel st =
      ((probeRun fuel { st with
          volume_update_state := 1,
          poweron_refresh_successful := true } 1).1,
        CMD_VOLUME_DOWN :: (probeRun fuel { st with
          volume_update_state := 1,
          poweron_refresh_successful := true } 1).2.1,
        (probeRun fuel { st with
          volume_update_state := 1,
          poweron_refresh_successful := true } 1).2.2) := by
    simp [probeRunFrom, hcb]
  obtain ⟨l1, l2, l3⟩ := probeRun_state1 fuel
    { st with volume_update_state := 1, poweron_refresh_successful := true }
    1 hst1
  rw [hrun]
  refine ⟨by simp; omega, by simp [l2], fun hf => l3 (by omega) (by omega)⟩

/-- C5 witness: the probe run from a fresh handler with 10 timer fires. -/
theorem claim5_probe_at_most_ten_witness :
    (probeRunFrom 10 initialState).2.1.length ≤ 10
    ∧ (probeRunFrom 10 initialState).2.1.all (· == CMD_VOLUME_DOWN) = true
    ∧ (10 ≤ 10 → (probeRunFrom 10 initialState).2.2 = true) :=
  claim5_probe_at_most_ten initialState 10 rfl

/-- C8: a message matching no catalog attribute prefix and none of the
three device-error prefixes leaves the whole handler state (in
particular every DeviceState entry) unchanged, sends no command,
schedules no external update notification, and is marked unrecognized;
the decode path is total, so nothing is raised. -/
theorem claim8_unknown_message_no_effect (st : AVRState) (data : List Char)
    (h1 : pyStartsWith (str "#11,01") data = false)
    (h2 : pyStartsWith (str "#11,02") data = false)
    (h3 : pyStartsWith (str "#11,03") data = false)
    (h4 : ∀ kv ∈ LOOKUP, pyStartsWith kv.1 data = false) :
    (parseMessage st data).st = st
    ∧ (parseMessage st data).cmds = []
    ∧ (∀ d, Sched.update d ∉ (parseMessage st data).sched)
    ∧ (parseMessage st data).recognized = false := by
  have hfind := findAttr_eq_none data h4
  have hu : pyStartsWith ATTR_VOLUME_UP data = false :=
    h4 (ATTR_VOLUME_UP, .volume) (by simp [LOOKUP])
  have hd : pyStartsWith ATTR_VOLUME_DOWN data = false :=
    h4 (ATTR_VOLUME_DOWN, .volume) (by simp [LOOKUP])
  refine ⟨?_, ?_, ?_, ?_⟩ <;>
    simp [parseMessage, h1, h2, h3, hfind, hu, hd]

/-- C8 witness: the unknown message `"#99,99,x"` on a fresh handler. -/
theorem claim8_unknown_message_no_effect_witness :
    (parseMessage initialState (str "#99,99,x")).st = initialState
    ∧ (parseMessage initialState (str "#99,99,x")).cmds = []
    ∧ (∀ d, Sched.update d ∉ (parseMessage initialState (str "#99,99,x")).sched)
    ∧ (parseMessage initialState (str "#99,99,x")).recognized = false :=
  claim8_unknown_message_no_effect initialState (str "#99,99,x")
    rfl rfl rfl (by decide)

/-- C10: the `"#6,02"` and `"#6,03"` prefixes are bound to the same
`volume` field; decoding either message form stores the value suffix in
that one field, after which the `attenuation` getter returns it parsed
as an integer, so consecutive volume messages always leave the getter
reflecting the most recently decoded one. -/
theorem claim10_volume_prefixes_share_field (st : AVRState)
    (s1 s2 : List Char) (v : Int) (hv : pyParseInt s2 = some v) :
    findAttr LOOKUP (str "#6,02," ++ s1)
      = some (ATTR_VOLUME_UP, AttrField.volume)
    ∧ findAttr LOOKUP (str "#6,03," ++ s1)
      = some (ATTR_VOLUME_DOWN, AttrField.volume)
    ∧ (parseMessage st (str "#6,02," ++ s2)).st.dev.volume = s2
    ∧ (parseMessage st (str "#6,03," ++ s2)).st.dev.volume = s2
    ∧ attenuation (parseMessage st (str "#6,02," ++ s2)).st = v
    ∧ attenuation (parseMessage st (str "#6,03," ++ s2)).st = v
    ∧ attenuation (parseMessage
        (parseMessage st (str "#6,02," ++ s1)).st (str "#6,03," ++ s2)).st
      = v := by
  have hup : ∀ st0 : AVRState,
      (parseMessage st0 (str "#6,02," ++ s2)).st.dev.volume = s2 := by
    intro st0
    have e0 : (pyStartsWith (str "#11,01") (str "#6,02," ++ s2)
        || pyStartsWith (str "#11,02") (str "#6,02," ++ s2)
        || pyStartsWith (str "#11,03") (str "#6,02," ++ s2)) = false := rfl
    have e1 : findAttr LOOKUP (str "#6,02," ++ s2)
        = some (ATTR_VOLUME_UP, .volume) := rfl
    have e2 : (str "#6,02," ++ s2).drop (ATTR_VOLUME_UP.length + 1) = s2 := rfl
    have e3 : (pyStartsWith ATTR_VOLUME_UP (str "#6,02," ++ s2)
        || pyStartsWith ATTR_VOLUME_DOWN (str "#6,02," ++ s2)) = true := rfl
    simp only [parseMessage, e0, e1, e2, e3, Bool.false_eq_true,
      if_false, if_true]
    split_ifs <;> simp [DeviceState.set]
  have hdn : ∀ st0 : AVRState,
      (parseMessage st0 (str "#6,03," ++ s2)).st.dev.volume = s2 := by
    intro st0
    have e0 : (pyStartsWith (str "#11,01") (str "#6,03," ++ s2)
        || pyStartsWith (str "#11,02") (str "#6,03," ++ s2)
        || pyStartsWith (str "#11,03") (str "#6,03," ++ s2)) = false := rfl
    have e1 : findAttr LOOKUP (str "#6,03," ++ s2)
        = some (ATTR_VOLUME_DOWN, .volume) := rfl
    have e2 : (str "#6,03," ++ s2).drop (ATTR_VOLUME_DOWN.length + 1) = s2 := rfl
    have e3 : (pyStartsWith ATTR_VOLUME_UP (str "#6,03," ++ s2)
        || pyStartsWith ATTR_VOLUME_DOWN (str "#6,03," ++ s2)) = true := rfl
    simp only [parseMessage, e0, e1, e2, e3, Bool.false_eq_true,
      if_false, if_true]
    split_ifs <;> simp [DeviceState.set]
  refine ⟨rfl, rfl, hup st, hdn st, ?_, ?_, ?_⟩ <;>
    simp [attenuation, DeviceState.get, hup, hdn, hv]

/-- C10 witness: after `"#6,02,-30"` then `"#6,03,-45"` on a fresh
handler, the getter reflects −45. -/
theorem claim10_volume_prefixes_share_field_witness :
    findAttr LOOKUP (str "#6,02," ++ str "-30")
      = some (ATTR_VOLUME_UP, AttrField.volume)
    ∧ findAttr LOOKUP (str "#6,03," ++ str "-30")
      = some (ATTR_VOLUME_DOWN, AttrField.volume)
    ∧ (parseMessage initialState (str "#6,02," ++ str "-45")).st.dev.volume
      = str "-45"
    ∧ (parseMessage initialState (str "#6,03," ++ str "-45")).st.dev.volume
      = str "-45"
    ∧ attenuation (parseMessage initialState
        (str "#6,02," ++ str "-45")).st = -45
    ∧ attenuation (parseMessage initialState
        (str "#6,03," ++ str "-45")).st = -45
    ∧ attenuation (parseMessage
        (parseMessage initialState (str "#6,02," ++ str "-30")).st
        (str "#6,03," ++ str "-45")).st = -45 :=
  claim10_volume_prefixes_share_field initialState (str "-30") (str "-45")
    (-45) (by decide)

end CambridgeAVR
